import Mathlib

/-!
Verification of the FRAUDULINK text-classification core
(`src/ml_model/detector.py`) against its natural-language specification.

The Python core is shallowly embedded: strings are Lean `String`s, the
pickled vectorizer/model artifacts become fields of a `ScamDetector`
record holding total functions (the spec states vectorization and
classification never fail per-request), and Python floats are modelled
as rationals `ℚ`.
-/

namespace Fraudulink

/-- `string.punctuation` membership test. CPython defines
`string.punctuation` as the 32 ASCII punctuation characters, exactly the
code ranges 33-47, 58-64, 91-96 and 123-126. -/
def isPunct (c : Char) : Bool :=
  (33 ≤ c.toNat && c.toNat ≤ 47) || (58 ≤ c.toNat && c.toNat ≤ 64) ||
  (91 ≤ c.toNat && c.toNat ≤ 96) || (123 ≤ c.toNat && c.toNat ≤ 126)

/-- The three risk buckets returned by `ScamDetector._get_risk_level`. -/
inductive RiskLevel
  | LOW
  | MEDIUM
  | HIGH
deriving DecidableEq, Repr

/-- The loaded classifier artifact (`model.pkl`): a prediction function on
feature vectors, and optionally a probability estimate (`predict_proba`
is absent on some scikit-learn models, raising `AttributeError`; absence
is modelled by `none`). `predict_proba` returns the pair
`(probabilities[0], probabilities[1])` for classes 0 and 1. -/
structure Model where
  predict : List ℚ → ℕ
  predict_proba : Option (List ℚ → ℚ × ℚ)

/-- The detector: the loaded classifier plus the loaded vectorizer
(`vectorizer.pkl`), whose `transform` is a total text-to-vector map. -/
structure ScamDetector where
  model : Model
  vectorizer : String → List ℚ

/-- The result dictionary built by `ScamDetector.analyze`. -/
structure Verdict where
  is_scam : Bool
  confidence : ℚ
  label : String
  original_text : String
  processed_text : String
  risk_level : RiskLevel
deriving DecidableEq, Repr

/-- `ScamDetector.preprocess_text`: remove punctuation, i.e.
`''.join(char for char in text if char not in string.punctuation)`. -/
def preprocess_text (text : String) : String :=
  ⟨text.data.filter (fun c => !(isPunct c))⟩

/-- `ScamDetector._get_risk_level`: risk bucket from confidence and the
scam flag. -/
def get_risk_level (confidence : ℚ) (is_scam : Bool) : RiskLevel :=
  if !is_scam then RiskLevel.LOW
  else if confidence ≥ 0.8 then RiskLevel.HIGH
  else if confidence ≥ 0.6 then RiskLevel.MEDIUM
  else RiskLevel.LOW

/-- `ScamDetector.analyze`: preprocess, vectorize, predict, derive the
confidence (probability of the predicted class when `predict_proba`
exists, else `1.0 if prediction == 0 else 0.0`), and assemble the result
dictionary. The Python method has no error path: it returns a verdict
for every input string. -/
def ScamDetector.analyze (d : ScamDetector) (text : String) : Verdict :=
  let processed_text := preprocess_text text
  let vector := d.vectorizer processed_text
  let prediction := d.model.predict vector
  let confidence : ℚ :=
    match d.model.predict_proba with
    | some proba =>
        let probabilities := proba vector
        if prediction == 0 then probabilities.1 else probabilities.2
    | none => if prediction == 0 then 1 else 0
  let is_scam := prediction == 0
  { is_scam := is_scam
    confidence := confidence
    label := if is_scam then "SCAM" else "SAFE"
    original_text := text
    processed_text := processed_text
    risk_level := get_risk_level confidence is_scam }

/-- Default location of the classifier artifact: `MODULE_DIR / 'model.pkl'`. -/
def default_model_path (module_dir : String) : String :=
  module_dir ++ "/model.pkl"

/-- Default location of the vectorizer artifact: `MODULE_DIR / 'vectorizer.pkl'`. -/
def default_vectorizer_path (module_dir : String) : String :=
  module_dir ++ "/vectorizer.pkl"

/-- `ScamDetector.__init__`: substitute the default artifact paths when
none are given, then load both artifacts. The deterministic
pickle-loading of the two files is abstracted as `load`. -/
def ScamDetector.init (load : String → String → ScamDetector)
    (module_dir : String)
    (model_path vectorizer_path : Option String) : ScamDetector :=
  load (model_path.getD (default_model_path module_dir))
    (vectorizer_path.getD (default_vectorizer_path module_dir))

/-- Module-level convenience function `detect_scam`: build a detector
with default paths and analyze. -/
def detect_scam (load : String → String → ScamDetector)
    (module_dir : String) (text : String) : Verdict :=
  (ScamDetector.init load module_dir none none).analyze text

/-- A concrete detector whose classifier always predicts class `k` and
exposes no `predict_proba`; used to evaluate the embedding at concrete
inputs. -/
def constDetector (k : ℕ) : ScamDetector :=
  { model := { predict := fun _ => k, predict_proba := none }
    vectorizer := fun _ => [] }

/-- The hypothesis of the confidence-range property: whenever the model
exposes `predict_proba`, both returned class probabilities lie in `[0,1]`. -/
def ProbaInUnit (m : Model) : Prop :=
  ∀ f, m.predict_proba = some f →
    ∀ v, 0 ≤ (f v).1 ∧ (f v).1 ≤ 1 ∧ 0 ≤ (f v).2 ∧ (f v).2 ≤ 1

/-- C3: the risk-level function returns LOW whenever the scam flag is
false; HIGH whenever the flag is true and confidence ≥ 0.8; MEDIUM
whenever the flag is true and 0.6 ≤ confidence < 0.8; LOW whenever the
flag is true and confidence < 0.6 — boundaries 0.8 and 0.6 inclusive for
the higher bucket. -/
theorem get_risk_level_spec (c : ℚ) (b : Bool) :
    (b = false → get_risk_level c b = RiskLevel.LOW) ∧
    (b = true → 0.8 ≤ c → get_risk_level c b = RiskLevel.HIGH) ∧
    (b = true → 0.6 ≤ c → c < 0.8 → get_risk_level c b = RiskLevel.MEDIUM) ∧
    (b = true → c < 0.6 → get_risk_level c b = RiskLevel.LOW) := by
  unfold get_risk_level
  refine ⟨fun hb => by simp [hb], fun hb h8 => ?_, fun hb h6 h8 => ?_, fun hb h6 => ?_⟩
  · simp only [hb, Bool.not_true, Bool.false_eq_true, if_false, ge_iff_le]
    rw [if_pos h8]
  · simp only [hb, Bool.not_true, Bool.false_eq_true, if_false, ge_iff_le]
    rw [if_neg (by exact not_le.mpr h8), if_pos h6]
  · simp only [hb, Bool.not_true, Bool.false_eq_true, if_false, ge_iff_le]
    rw [if_neg (by exact not_le.mpr (lt_of_lt_of_le h6 (by norm_num))),
      if_neg (by exact not_le.mpr h6)]

/-- Witness for C3: concrete boundary inputs, discharging each
hypothesis at 0.8 and at 0.7 with the scam flag true. -/
theorem get_risk_level_spec_witness :
    get_risk_level 0.8 true = RiskLevel.HIGH ∧
    get_risk_level 0.7 true = RiskLevel.MEDIUM ∧
    get_risk_level 0.5 true = RiskLevel.LOW ∧
    get_risk_level 0.9 false = RiskLevel.LOW :=
  ⟨(get_risk_level_spec 0.8 true).2.1 rfl (by norm_num),
   (get_risk_level_spec 0.7 true).2.2.1 rfl (by norm_num) (by norm_num),
   (get_risk_level_spec 0.5 true).2.2.2 rfl (by norm_num),
   (get_risk_level_spec 0.9 false).1 rfl⟩

/-- C4: `preprocess_text` yields a string with no ASCII punctuation
character; its characters form a subsequence of the input (relative
order and case preserved), and every non-punctuation character of the
input is kept with its exact multiplicity — so nothing else is removed
or transformed. -/
theorem preprocess_text_spec (t : String) :
    (∀ c ∈ (preprocess_text t).data, isPunct c = false) ∧
    (preprocess_text t).data.Sublist t.data ∧
    (∀ c : Char, isPunct c = false →
      (preprocess_text t).data.count c = t.data.count c) := by
  refine ⟨fun c hc => ?_, List.filter_sublist t.data, fun c hc => ?_⟩
  · have := List.of_mem_filter hc
    simpa using this
  · show List.count c (List.filter _ t.data) = _
    rw [List.count_filter]
    simp [hc]

/-- Witness for C4: evaluates the count-preservation conjunct at the
concrete input "a,b!" and character 'a'. -/
theorem preprocess_text_spec_witness :
    (preprocess_text "a,b!").data.count 'a' = ("a,b!" : String).data.count 'a' :=
  (preprocess_text_spec "a,b!").2.2 'a' (by decide)

/-- C9: `preprocess_text` is idempotent — applying it to its own output
changes nothing further. -/
theorem preprocess_text_idempotent (t : String) :
    preprocess_text (preprocess_text t) = preprocess_text t := by
  unfold preprocess_text
  refine congrArg String.mk ?_
  rw [List.filter_filter]
  simp

/-- Counterexample for C1: `analyze` has no empty-input check — on the
empty string and on a whitespace-only string it returns a Verdict
instead of failing with `EmptyInputError` (no such error exists in the
core; the rejection happens only in the web layer). Evaluated on a
concrete loaded detector. -/
theorem analyze_empty_returns_verdict :
    (constDetector 1).analyze "" =
      { is_scam := false, confidence := 0, label := "SAFE",
        original_text := "", processed_text := "",
        risk_level := RiskLevel.LOW } ∧
    (constDetector 1).analyze "   " =
      { is_scam := false, confidence := 0, label := "SAFE",
        original_text := "   ", processed_text := "   ",
        risk_level := RiskLevel.LOW } := by
  constructor <;> rfl

/-- C1 amended: `analyze` performs no emptiness validation — for every
loaded detector, `analyze ""` and `analyze "   "` return ordinary
Verdicts that echo the input (whitespace is not punctuation, so
`processed_text` keeps it). -/
theorem analyze_accepts_empty_input (d : ScamDetector) :
    (d.analyze "").original_text = "" ∧
    (d.analyze "").processed_text = "" ∧
    (d.analyze "   ").original_text = "   " ∧
    (d.analyze "   ").processed_text = "   " :=
  ⟨rfl, rfl, rfl, rfl⟩

/-- Counterexample for C2: with `predict_proba` absent and the classifier
predicting class 1 (SAFE), the returned confidence is 0, not 1 — so in
the fallback a confidence of 0 IS returned for the predicted class. -/
theorem fallback_confidence_zero_for_safe :
    ((constDetector 1).analyze "hello").label = "SAFE" ∧
    ((constDetector 1).analyze "hello").is_scam = false ∧
    ((constDetector 1).analyze "hello").confidence = 0 := by
  refine ⟨rfl, rfl, ?_⟩
  show (0 : ℚ) = 0
  rfl

/-- C2 amended: when `predict_proba` is absent the confidence is 1.0
exactly when class 0 (SCAM) is predicted and 0.0 otherwise — i.e. a
SAFE prediction gets confidence 0 for the predicted class in the
fallback. -/
theorem analyze_fallback_confidence (vecf : String → List ℚ)
    (pred : List ℚ → ℕ) (text : String) :
    (ScamDetector.analyze ⟨⟨pred, none⟩, vecf⟩ text).confidence =
      if pred (vecf (preprocess_text text)) == 0 then 1 else 0 := rfl

/-- Helper: the label of every verdict is "SCAM" or "SAFE", by cases on
the prediction. -/
theorem label_scam_or_safe (d : ScamDetector) (text : String) :
    (d.analyze text).label = "SCAM" ∨ (d.analyze text).label = "SAFE" := by
  by_cases h : d.model.predict (d.vectorizer (preprocess_text text)) = 0
  · left
    show (if _ == 0 then _ else _) = _
    simp [h]
  · right
    show (if _ == 0 then _ else _) = _
    simp [h]

/-- C5: class index 0 is interpreted as SCAM and any other prediction as
SAFE — `is_scam` is true and the label is "SCAM" exactly when the
classifier predicts class 0 on the vectorized processed text, and the
label is always one of "SCAM" and "SAFE". -/
theorem analyze_class_convention (d : ScamDetector) (text : String) :
    (d.analyze text).is_scam =
      (d.model.predict (d.vectorizer (preprocess_text text)) == 0) ∧
    (d.analyze text).label =
      (if d.model.predict (d.vectorizer (preprocess_text text)) == 0
        then "SCAM" else "SAFE") ∧
    ((d.analyze text).label = "SCAM" ∨ (d.analyze text).label = "SAFE") :=
  ⟨rfl, rfl, label_scam_or_safe d text⟩

/-- C6: provided the model's probability estimates (when exposed) lie in
[0,1], the confidence of every verdict lies in the closed interval
[0,1] — in the fallback branch it is 0 or 1, both inside the interval. -/
theorem analyze_confidence_in_unit (d : ScamDetector) (text : String)
    (h : ProbaInUnit d.model) :
    0 ≤ (d.analyze text).confidence ∧ (d.analyze text).confidence ≤ 1 := by
  unfold ScamDetector.analyze
  cases hp : d.model.predict_proba with
  | none =>
      simp only [hp]
      split <;> norm_num
  | some f =>
      have hv := h f hp (d.vectorizer (preprocess_text text))
      simp only [hp]
      split
      · exact ⟨hv.1, hv.2.1⟩
      · exact ⟨hv.2.2.1, hv.2.2.2⟩

/-- Witness for C6: the hypothesis is discharged for a concrete detector
without `predict_proba`, at the input "hi". -/
theorem analyze_confidence_in_unit_witness :
    0 ≤ ((constDetector 0).analyze "hi").confidence ∧
    ((constDetector 0).analyze "hi").confidence ≤ 1 :=
  analyze_confidence_in_unit (constDetector 0) "hi" (fun _ h => nomatch h)

/-- C7: on an input made only of punctuation characters, `analyze` still
returns a Verdict (the embedded vectorize and classify steps are total)
whose `processed_text` is the empty string, with a well-formed label. -/
theorem analyze_all_punctuation (d : ScamDetector) (t : String)
    (h : ∀ c ∈ t.data, isPunct c = true) :
    (d.analyze t).processed_text = "" ∧
    ((d.analyze t).label = "SCAM" ∨ (d.analyze t).label = "SAFE") := by
  have hfilter : t.data.filter (fun c => !(isPunct c)) = [] := by
    rw [List.filter_eq_nil_iff]
    intro a ha
    simp [h a ha]
  refine ⟨?_, label_scam_or_safe d t⟩
  show preprocess_text t = ""
  unfold preprocess_text
  rw [hfilter]

/-- Witness for C7: the punctuation-only input from the spec's scenario 3. -/
theorem analyze_all_punctuation_witness :
    ((constDetector 1).analyze "!!!???...").processed_text = "" ∧
    (((constDetector 1).analyze "!!!???...").label = "SCAM" ∨
      ((constDetector 1).analyze "!!!???...").label = "SAFE") :=
  analyze_all_punctuation (constDetector 1) "!!!???..." (by decide)

/-- C8: `analyze` is deterministic — two calls with the same loaded
artifacts and the same text yield identical Verdicts in every field
(the embedding is a pure function of the detector state and the text;
the source reads no other state and mutates nothing). -/
theorem analyze_deterministic (d1 d2 : ScamDetector) (t : String)
    (h : d1 = d2) : d1.analyze t = d2.analyze t := by rw [h]

/-- Witness for C8: two calls on the same concrete detector and text. -/
theorem analyze_deterministic_witness :
    (constDetector 0).analyze "abc" = (constDetector 0).analyze "abc" :=
  analyze_deterministic (constDetector 0) (constDetector 0) "abc" rfl

/-- C10: `detect_scam text` equals constructing a detector with the two
default artifact paths explicitly and calling `analyze text`, for any
loader and module directory — the convenience function only fills in
the defaults. -/
theorem detect_scam_eq_default_analyze (load : String → String → ScamDetector)
    (module_dir text : String) :
    detect_scam load module_dir text =
      (ScamDetector.init load module_dir
        (some (default_model_path module_dir))
        (some (default_vectorizer_path module_dir))).analyze text := rfl

end Fraudulink
